import Mathlib

/-
Verification of the `windowing` crate (src/lib.rs): a cross-platform layer
for querying and manipulating desktop windows, with an X11 backend (Linux)
and a Win32 backend (Windows).

The OS windowing system is modelled as an explicit environment record per
backend; each public Rust function is translated into a Lean function over
that environment.  Rust `Result<T, Box<dyn Error>>` becomes
`Except String T`; a Rust panic (`.unwrap()`) is modelled by a dedicated
`Outcome.panic` constructor where it occurs.
-/

namespace Windowing

/-- Shared value type: `WindowInfo { pos: (i32, i32), size: (u32, u32) }`. -/
structure WindowInfo where
  pos : Int × Int
  size : Nat × Nat
deriving DecidableEq, Repr

/-- Tri-valued outcome of a call that can return, error, or abort the process. -/
inductive Outcome (α : Type) where
  | ok : α → Outcome α
  | err : String → Outcome α
  | panic : Outcome α
deriving DecidableEq, Repr

namespace X11

/-- An x11rb `GetPropertyReply` for a property whose data is a sequence of
32-bit items; `format` is the reply's format field and `value` the decoded
items (so `value_len = value.length` for a format-32 reply). -/
structure GetPropertyReply where
  format : Nat
  value : List Nat
deriving DecidableEq, Repr

/-- The reply's `value_len` field (number of 32-bit items). -/
def GetPropertyReply.valueLen (r : GetPropertyReply) : Nat := r.value.length

/-- `GetPropertyReply::value32`: `Some` iterator of 32-bit values iff format is 32. -/
def GetPropertyReply.value32 (r : GetPropertyReply) : Option (List Nat) :=
  if r.format = 32 then some r.value else none

/-- An x11rb `GetGeometryReply` (fields `x, y : i16` and `width, height : u16`). -/
structure GetGeometryReply where
  x : Int
  y : Int
  width : Nat
  height : Nat
deriving DecidableEq, Repr

/-- `impl Into<WindowInfo> for GetGeometryReply`: pos = (x, y), size = (width, height). -/
def GetGeometryReply.toWindowInfo (g : GetGeometryReply) : WindowInfo :=
  { pos := (g.x, g.y), size := (g.width, g.height) }

/-- Model of the X server state observed through one connection: the replies
it gives to the property and geometry requests issued by the crate, plus the
window-manager facts (visibility, title) that the specification's tie-break
policy refers to. `connectOk` models whether `RustConnection::connect`
succeeds. `geometry w = none` models a rejected `GetGeometry` request
(invalid/destroyed window). -/
structure X11Server where
  connectOk : Bool
  activeWindowProp : GetPropertyReply
  clientListProp : GetPropertyReply
  pidProp : Nat → GetPropertyReply
  geometry : Nat → Option GetGeometryReply
  visible : Nat → Bool
  titleLen : Nat → Nat

/-- `get_active_window`: read `_NET_ACTIVE_WINDOW` from the root window. -/
def get_active_window (s : X11Server) : Except String Nat :=
  let prop := s.activeWindowProp
  if prop.valueLen = 0 ∨ prop.format ≠ 32 then
    .error "No active window found"
  else
    match prop.value32 with
    | none => .error "Failed to parse active window ID"
    | some vs =>
      match vs.head? with
      | none => .error "Active window property is empty"
      | some w => .ok w

/-- `get_window_info` (X11): connects with `.unwrap()` — a connection failure
is a panic, not an error — then issues `GetGeometry`, whose rejection is
propagated as an error. -/
def get_window_info (s : X11Server) (window : Nat) : Outcome WindowInfo :=
  if s.connectOk then
    match s.geometry window with
    | some geom => .ok geom.toWindowInfo
    | none => .err "geometry request rejected"
  else .panic

/-- `get_top_level_windows`: read `_NET_CLIENT_LIST` from the root window. -/
def get_top_level_windows (s : X11Server) : Except String (List Nat) :=
  match s.clientListProp.value32 with
  | none => .error "Failed to read _NET_CLIENT_LIST"
  | some ws => .ok ws

/-- `get_window_pid`: read `_NET_WM_PID` of a window; an absent or non-format-32
property is `Ok(None)`. -/
def get_window_pid (s : X11Server) (window : Nat) : Except String (Option Nat) :=
  let reply := s.pidProp window
  if reply.valueLen = 0 ∨ reply.format ≠ 32 then .ok none
  else
    match reply.value32 with
    | none => .error "Failed to parse PID"
    | some vs =>
      match vs.head? with
      | none => .error "PID property is empty"
      | some pid => .ok (some pid)

/-- The `for window in windows` loop of `find_window_by_pid`: return the first
window whose `_NET_WM_PID` equals the target. -/
def findWindowLoop (s : X11Server) (targetPid : Nat) : List Nat → Except String (Option Nat)
  | [] => .ok none
  | w :: ws =>
    match get_window_pid s w with
    | .error e => .error e
    | .ok (some pid) =>
      if pid = targetPid then .ok (some w) else findWindowLoop s targetPid ws
    | .ok none => findWindowLoop s targetPid ws

/-- `find_window_by_pid` (X11). -/
def find_window_by_pid (s : X11Server) (targetPid : Nat) : Except String (Option Nat) :=
  if s.connectOk then
    match get_top_level_windows s with
    | .error e => .error e
    | .ok windows => findWindowLoop s targetPid windows
  else .error "connection failed"

/-- The accumulation loop of `find_windows_by_pid`: push every window whose
`_NET_WM_PID` equals the target onto the vector. -/
def findWindowsLoop (s : X11Server) (targetPid : Nat) (acc : List Nat) :
    List Nat → Except String (List Nat)
  | [] => .ok acc
  | w :: ws =>
    match get_window_pid s w with
    | .error e => .error e
    | .ok (some pid) =>
      if pid = targetPid then findWindowsLoop s targetPid (acc ++ [w]) ws
      else findWindowsLoop s targetPid acc ws
    | .ok none => findWindowsLoop s targetPid acc ws

/-- `find_windows_by_pid` (X11). -/
def find_windows_by_pid (s : X11Server) (targetPid : Nat) : Except String (List Nat) :=
  if s.connectOk then
    match get_top_level_windows s with
    | .error e => .error e
    | .ok windows => findWindowsLoop s targetPid [] windows
  else .error "connection failed"

/-- `get_active_window_pid` (X11): resolve the active window, then its PID.
A failure of `get_active_window` is propagated by `?`. -/
def get_active_window_pid (s : X11Server) : Except String (Option Nat) :=
  if s.connectOk then
    match get_active_window s with
    | .error e => .error e
    | .ok aw => get_window_pid s aw
  else .error "connection failed"

/-- Pure reading of a window's `_NET_WM_PID` (the value `get_window_pid`
returns on its non-error paths). -/
def windowPid (s : X11Server) (w : Nat) : Option Nat :=
  let reply := s.pidProp w
  if reply.valueLen = 0 ∨ reply.format ≠ 32 then none else reply.value.head?

/- Interned atoms used by `hide_window`; distinct numeric stand-ins for the
atom identifiers the server hands back, plus one further EWMH state atom to
exercise pre-existing `_NET_WM_STATE` contents. -/

/-- Interned atom for the string _NET_WM_STATE. -/
def NET_WM_STATE : Nat := 100

/-- Interned atom for the string _NET_WM_STATE_SKIP_TASKBAR. -/
def NET_WM_STATE_SKIP_TASKBAR : Nat := 101

/-- Interned atom for the string _NET_WM_STATE_SKIP_PAGER. -/
def NET_WM_STATE_SKIP_PAGER : Nat := 102

/-- Interned atom for the string _NET_WM_STATE_MAXIMIZED_VERT (not used by the
crate; a state a window manager may have put on a window beforehand). -/
def NET_WM_STATE_MAXIMIZED_VERT : Nat := 103

/-- x11rb `PropMode` for `change_property`. The crate only uses `REPLACE`. -/
inductive PropMode where
  | replace
  | prepend
  | append
deriving DecidableEq, Repr

/-- A state-changing X protocol request issued by `hide_window`
(`intern_atom` round-trips are pure queries and `flush` only drains the
output buffer; both leave window state unchanged, `flush` is kept in the
trace to mirror the call sequence). -/
inductive XRequest where
  | unmapWindow (w : Nat)
  | changeProperty (mode : PropMode) (w : Nat) (prop : Nat) (ty : Nat) (values : List Nat)
  | mapWindow (w : Nat)
  | flush
deriving DecidableEq, Repr

/-- `AtomEnum::ATOM`, the declared type of the `_NET_WM_STATE` property data. -/
def ATOM_ATOM : Nat := 4

/-- The request sequence `hide_window` sends for a window, in program order:
unmap, set `_NET_WM_STATE` to [SKIP_TASKBAR, SKIP_PAGER] with `PropMode::REPLACE`,
map, flush. -/
def hideWindowRequests (window : Nat) : List XRequest :=
  [ .unmapWindow window,
    .changeProperty .replace window NET_WM_STATE ATOM_ATOM
      [NET_WM_STATE_SKIP_TASKBAR, NET_WM_STATE_SKIP_PAGER],
    .mapWindow window,
    .flush ]

/-- Observable state of one X window: whether it is mapped and the list of
atoms in its `_NET_WM_STATE` property. -/
structure XWindowState where
  winId : Nat
  mapped : Bool
  netWmState : List Nat
deriving DecidableEq, Repr

/-- Effect of one request on a window's state (requests addressed to other
windows leave it unchanged). -/
def applyRequest (st : XWindowState) : XRequest → XWindowState
  | .unmapWindow w => if w = st.winId then { st with mapped := false } else st
  | .mapWindow w => if w = st.winId then { st with mapped := true } else st
  | .changeProperty mode w prop _ty values =>
    if w = st.winId ∧ prop = NET_WM_STATE then
      match mode with
      | .replace => { st with netWmState := values }
      | .prepend => { st with netWmState := values ++ st.netWmState }
      | .append => { st with netWmState := st.netWmState ++ values }
    else st
  | .flush => st

/-- Run a request sequence against a window's state. -/
def runRequests (st : XWindowState) (rs : List XRequest) : XWindowState :=
  rs.foldl applyRequest st

/-- Failure injection for each fallible step of the X11 `hide_window`
sequence, in program order. Every step's `Result` is propagated with `?`. -/
structure X11HideEnv where
  connectOk : Bool
  unmapOk : Bool
  internAtomOk : Bool
  changePropertyOk : Bool
  mapOk : Bool
  flushOk : Bool
deriving DecidableEq, Repr

/-- `hide_window` (X11) as its error-propagation skeleton: each step's
failure short-circuits the function with an error. -/
def hide_window (e : X11HideEnv) : Except String Unit :=
  if ¬ e.connectOk then .error "connection failed"
  else if ¬ e.unmapOk then .error "unmap failed"
  else if ¬ e.internAtomOk then .error "intern atom failed"
  else if ¬ e.changePropertyOk then .error "change property failed"
  else if ¬ e.mapOk then .error "map failed"
  else if ¬ e.flushOk then .error "flush failed"
  else .ok ()

end X11

namespace Win

/-- A Win32 `RECT` (all fields `i32`). -/
structure RECT where
  left : Int
  top : Int
  right : Int
  bottom : Int
deriving DecidableEq, Repr

/-- 2^32, the modulus of `u32`/`i32` casts. -/
def UINT32_MOD : Nat := 4294967296

/-- The Rust cast `(n : i32) as u32`: two's-complement reinterpretation,
i.e. `n mod 2^32` as a natural number. -/
def asU32 (n : Int) : Nat := (n % (UINT32_MOD : Int)).toNat

/-- The `WindowInfo` built by the Windows `get_window_info`:
`size = ((right - left) as u32, (bottom - top) as u32)`, `pos = (left, top)`. -/
def rectToWindowInfo (r : RECT) : WindowInfo :=
  { size := (asU32 (r.right - r.left), asU32 (r.bottom - r.top)),
    pos := (r.left, r.top) }

/-- Model of the Win32 desktop as observed by the crate: the top-level
windows in `EnumWindows` order, each window's owning process id, visibility
and title length, each window's rectangle (`none` models a failing
`GetWindowRect`), the foreground window (`0` models a null `HWND`), and
whether `EnumWindows` itself succeeds. -/
structure WinSystem where
  topWindows : List Nat
  enumOk : Bool
  pidOf : Nat → Nat
  isWindowVisible : Nat → Bool
  titleLen : Nat → Nat
  windowRect : Nat → Option RECT
  foregroundWindow : Nat

/-- The `enum_windows_proc` callback folded over the enumeration: push every
window whose owning process id matches onto the accumulator. -/
def enumWindowsLoop (e : WinSystem) (process_id : Nat) (acc : List Nat) :
    List Nat → List Nat
  | [] => acc
  | w :: ws =>
    if e.pidOf w = process_id then enumWindowsLoop e process_id (acc ++ [w]) ws
    else enumWindowsLoop e process_id acc ws

/-- `find_windows_by_pid` (Windows): `EnumWindows` with the collecting
callback; an enumeration failure is an error. -/
def find_windows_by_pid (e : WinSystem) (process_id : Nat) : Except String (List Nat) :=
  if e.enumOk then .ok (enumWindowsLoop e process_id [] e.topWindows)
  else .error "EnumWindows failed"

/-- The selection loop of `find_window_by_pid` (Windows): first window that
is visible and has a title of positive length. -/
def findMainLoop (e : WinSystem) : List Nat → Option Nat
  | [] => none
  | w :: ws =>
    if e.isWindowVisible w then
      if 0 < e.titleLen w then some w else findMainLoop e ws
    else findMainLoop e ws

/-- `find_window_by_pid` (Windows): prefer the first visible titled window
among the process's windows; otherwise fall back to `windows.first()`. -/
def find_window_by_pid (e : WinSystem) (process_id : Nat) : Except String (Option Nat) :=
  match find_windows_by_pid e process_id with
  | .error err => .error err
  | .ok windows =>
    match findMainLoop e windows with
    | some w => .ok (some w)
    | none => .ok windows.head?

/-- `get_window_info` (Windows): `GetWindowRect` then the rect-to-info
conversion; a failing `GetWindowRect` is propagated as an error by `?`. -/
def get_window_info (e : WinSystem) (window : Nat) : Except String (Option WindowInfo) :=
  match e.windowRect window with
  | none => .error "GetWindowRect failed"
  | some r => .ok (some (rectToWindowInfo r))

/-- `get_active_window_pid` (Windows): `GetForegroundWindow` then
`GetWindowThreadProcessId`; on a null foreground window the out-parameter
keeps its initial value 0, and the result is always `Ok(Some(pid))`. -/
def get_active_window_pid (e : WinSystem) : Except String (Option Nat) :=
  let pid := if e.foregroundWindow = 0 then 0 else e.pidOf e.foregroundWindow
  .ok (some pid)

/-- `WS_EX_TOOLWINDOW = 0x80`. -/
def WS_EX_TOOLWINDOW : Nat := 128

/-- `WS_EX_TOPMOST = 0x8` (not used by the crate; a bit a window may carry
beforehand). -/
def WS_EX_TOPMOST : Nat := 8

/-- Observable state of one Win32 window: visibility and its `GWL_EXSTYLE`
extended-style bitmask. -/
structure WinWindowState where
  visible : Bool
  exStyle : Nat
deriving DecidableEq, Repr

/-- The state transformation performed by the Windows `hide_window`:
`ShowWindow(SW_HIDE)`, then `SetWindowLongA(GWL_EXSTYLE, WS_EX_TOOLWINDOW)`
(which stores exactly that value as the new extended style), then
`ShowWindow(SW_SHOW)`. -/
def hideWindowEffect (st : WinWindowState) : WinWindowState :=
  let st1 : WinWindowState := { st with visible := false }
  let st2 : WinWindowState := { st1 with exStyle := WS_EX_TOOLWINDOW }
  { st2 with visible := true }

/-- Failure injection for the steps of the Windows `hide_window`, in program
order. -/
structure WinHideEnv where
  hideOk : Bool
  setWindowLongOk : Bool
  showOk : Bool
deriving DecidableEq, Repr

/-- `hide_window` (Windows) as its error-propagation skeleton: the two
`ShowWindow` calls are checked with `.ok()?`, while the return value of the
intervening `SetWindowLongA` call is discarded, so `setWindowLongOk` is
never inspected. -/
def hide_window (e : WinHideEnv) : Except String Unit :=
  if ¬ e.hideOk then .error "ShowWindow SW_HIDE failed"
  else if ¬ e.showOk then .error "ShowWindow SW_SHOW failed"
  else .ok ()

end Win

/- Supporting lemmas: the request/accumulation loops of both backends are
characterized by `List.find?` / `List.filter` over the enumeration order. -/

namespace X11

/-- `get_window_pid` never takes its error branches: an inconsistent reply
(format 32, `value_len ≠ 0`, yet no 32-bit item) cannot occur, since
`value_len` counts the items of the reply. -/
theorem get_window_pid_eq (s : X11Server) (w : Nat) :
    get_window_pid s w = .ok (windowPid s w) := by
  unfold get_window_pid windowPid GetPropertyReply.value32
  by_cases h : (s.pidProp w).valueLen = 0 ∨ (s.pidProp w).format ≠ 32
  · simp [h]
  · push_neg at h
    obtain ⟨h1, h2⟩ := h
    have hcond : ¬((s.pidProp w).valueLen = 0 ∨ (s.pidProp w).format ≠ 32) := by
      simp [h1, h2]
    rw [if_neg hcond, if_neg hcond, if_pos h2]
    cases hv : (s.pidProp w).value.head? with
    | none =>
      exact absurd (by simpa [GetPropertyReply.valueLen, List.head?_eq_none_iff] using hv) h1
    | some pid => simp [hv]

/-- The search loop of `find_window_by_pid` returns the first window of the
enumeration whose `_NET_WM_PID` is the target, and never fails. -/
theorem findWindowLoop_eq (s : X11Server) (targetPid : Nat) (ws : List Nat) :
    findWindowLoop s targetPid ws =
      .ok (ws.find? fun w => decide (windowPid s w = some targetPid)) := by
  induction ws with
  | nil => rfl
  | cons w ws ih =>
    rw [findWindowLoop, get_window_pid_eq]
    cases hp : windowPid s w with
    | none => simp [List.find?_cons, hp, ih]
    | some pid =>
      by_cases hEq : pid = targetPid
      · subst hEq
        simp [List.find?_cons, hp]
      · simp [List.find?_cons, hp, hEq, ih]

/-- The accumulation loop of `find_windows_by_pid` appends exactly the
windows of the enumeration whose `_NET_WM_PID` is the target, in order, and
never fails. -/
theorem findWindowsLoop_eq (s : X11Server) (targetPid : Nat) (acc ws : List Nat) :
    findWindowsLoop s targetPid acc ws =
      .ok (acc ++ ws.filter fun w => decide (windowPid s w = some targetPid)) := by
  induction ws generalizing acc with
  | nil => simp [findWindowsLoop]
  | cons w ws ih =>
    rw [findWindowsLoop, get_window_pid_eq]
    cases hp : windowPid s w with
    | none => simp [List.filter_cons, hp, ih]
    | some pid =>
      by_cases hEq : pid = targetPid
      · subst hEq
        simp [List.filter_cons, hp, ih]
      · simp [List.filter_cons, hp, hEq, ih]

/-- `find_window_by_pid` (X11), on a live connection and a well-formed
client list, returns the first enumerated window with the target PID. -/
theorem find_window_by_pid_eq (s : X11Server) (targetPid : Nat)
    (hc : s.connectOk = true) (hf : s.clientListProp.format = 32) :
    find_window_by_pid s targetPid =
      .ok (s.clientListProp.value.find? fun w => decide (windowPid s w = some targetPid)) := by
  simp [find_window_by_pid, hc, get_top_level_windows, GetPropertyReply.value32, hf,
    findWindowLoop_eq]

/-- `find_windows_by_pid` (X11), on a live connection and a well-formed
client list, returns the enumerated windows with the target PID, in order. -/
theorem find_windows_by_pid_filter (s : X11Server) (targetPid : Nat)
    (hc : s.connectOk = true) (hf : s.clientListProp.format = 32) :
    find_windows_by_pid s targetPid =
      .ok (s.clientListProp.value.filter fun w => decide (windowPid s w = some targetPid)) := by
  simp [find_windows_by_pid, hc, get_top_level_windows, GetPropertyReply.value32, hf,
    findWindowsLoop_eq]

end X11

namespace Win

/-- The `EnumWindows` callback fold collects exactly the windows owned by
the target process, in enumeration order. -/
theorem enumWindowsLoop_eq (e : WinSystem) (process_id : Nat) (acc ws : List Nat) :
    enumWindowsLoop e process_id acc ws =
      acc ++ ws.filter fun w => decide (e.pidOf w = process_id) := by
  induction ws generalizing acc with
  | nil => simp [enumWindowsLoop]
  | cons w ws ih =>
    rw [enumWindowsLoop]
    by_cases h : e.pidOf w = process_id
    · rw [if_pos h, ih]
      simp [List.filter_cons, h]
    · rw [if_neg h, ih]
      simp [List.filter_cons, h]

/-- `find_windows_by_pid` (Windows), when `EnumWindows` succeeds, returns
the windows owned by the process in enumeration order. -/
theorem find_windows_by_pid_matches (e : WinSystem) (process_id : Nat)
    (he : e.enumOk = true) :
    find_windows_by_pid e process_id =
      .ok (e.topWindows.filter fun w => decide (e.pidOf w = process_id)) := by
  simp [find_windows_by_pid, he, enumWindowsLoop_eq]

/-- The main-window selection loop is `List.find?` with the
visible-and-titled test. -/
theorem findMainLoop_eq (e : WinSystem) (ws : List Nat) :
    findMainLoop e ws =
      ws.find? fun w => e.isWindowVisible w && decide (0 < e.titleLen w) := by
  induction ws with
  | nil => rfl
  | cons w ws ih =>
    rw [findMainLoop]
    by_cases hv : e.isWindowVisible w = true
    · by_cases ht : 0 < e.titleLen w
      · simp [List.find?_cons, hv, ht]
      · simp [List.find?_cons, hv, ht, ih]
    · simp [List.find?_cons, hv, ih]

end Win

/- Concrete environments used to instantiate the theorems below. -/

/-- An X server the transport layer cannot reach. -/
def unreachableServer : X11.X11Server where
  connectOk := false
  activeWindowProp := ⟨32, []⟩
  clientListProp := ⟨32, []⟩
  pidProp := fun _ => ⟨32, []⟩
  geometry := fun _ => none
  visible := fun _ => false
  titleLen := fun _ => 0

/-- A reachable X server that rejects every geometry request (e.g. the
window was destroyed). -/
def rejectingServer : X11.X11Server where
  connectOk := true
  activeWindowProp := ⟨32, []⟩
  clientListProp := ⟨32, []⟩
  pidProp := fun _ => ⟨32, []⟩
  geometry := fun _ => none
  visible := fun _ => false
  titleLen := fun _ => 0

/-- A reachable X server with two top-level windows owned by pid 7: window
10 unmapped and untitled, window 11 visible with a 4-character title; no
window is active. -/
def twoWindowServer : X11.X11Server where
  connectOk := true
  activeWindowProp := ⟨32, []⟩
  clientListProp := ⟨32, [10, 11]⟩
  pidProp := fun w => if w = 10 ∨ w = 11 then ⟨32, [7]⟩ else ⟨32, []⟩
  geometry := fun _ => some ⟨0, 0, 100, 50⟩
  visible := fun w => decide (w = 11)
  titleLen := fun w => if w = 11 then 4 else 0

/-- A reachable X server whose active window 10 carries no `_NET_WM_PID`
property. -/
def activeUntaggedServer : X11.X11Server where
  connectOk := true
  activeWindowProp := ⟨32, [10]⟩
  clientListProp := ⟨32, [10]⟩
  pidProp := fun _ => ⟨32, []⟩
  geometry := fun _ => none
  visible := fun _ => true
  titleLen := fun _ => 0

/-- A Win32 desktop with two top-level windows of process 7: window 20
hidden and untitled, window 21 visible and titled. -/
def sampleDesktop : Win.WinSystem where
  topWindows := [20, 21]
  enumOk := true
  pidOf := fun w => if w = 20 ∨ w = 21 then 7 else 1
  isWindowVisible := fun w => decide (w = 21)
  titleLen := fun w => if w = 21 then 5 else 0
  windowRect := fun _ => some ⟨10, 20, 110, 220⟩
  foregroundWindow := 21

/-- An initially mapped X window with a pre-existing `_NET_WM_STATE` atom. -/
def mappedWindow : X11.XWindowState where
  winId := 5
  mapped := true
  netWmState := [X11.NET_WM_STATE_MAXIMIZED_VERT]

/- Claim theorems. -/

/-- C1: with the X11 transport unavailable, `get_window_info` panics — the
`.unwrap()` on `RustConnection::connect` aborts instead of returning the
typed error the contract demands (every sibling function propagates the
same connect failure with `?`); on a live connection a rejected geometry
request does come back as a typed error. -/
theorem get_window_info_panics_without_transport :
    X11.get_window_info unreachableServer 5 = Outcome.panic ∧
    X11.get_window_info rejectingServer 5 = Outcome.err "geometry request rejected" :=
  ⟨rfl, rfl⟩

/-- C2: counterexample — the X11 `find_window_by_pid` does not apply the
tie-break policy: with windows 10 (unmapped, untitled) and 11 (visible,
titled) both owned by pid 7, it returns window 10 even though the visible
titled window 11 exists. -/
theorem find_window_by_pid_ignores_tiebreak_on_x11 :
    X11.find_window_by_pid twoWindowServer 7 = .ok (some 10) ∧
    twoWindowServer.visible 10 = false ∧ twoWindowServer.titleLen 10 = 0 ∧
    twoWindowServer.visible 11 = true ∧ 0 < twoWindowServer.titleLen 11 ∧
    X11.windowPid twoWindowServer 11 = some 7 ∧
    twoWindowServer.clientListProp.value = [10, 11] := by
  refine ⟨rfl, rfl, rfl, rfl, ?_, rfl, rfl⟩
  decide

/-- C2 amended: the Windows backend applies the tie-break policy — among the
enumerated windows owned by the pid it returns one that is visible with a
non-empty title when such a window exists, otherwise the first enumerated
owned window (the empty option when the pid owns none) — while the X11
backend returns the first enumerated window whose `_NET_WM_PID` matches,
regardless of visibility and title. -/
theorem find_window_by_pid_tiebreak_per_backend (e : Win.WinSystem)
    (s : X11.X11Server) (pid : Nat) (he : e.enumOk = true)
    (hc : s.connectOk = true) (hf : s.clientListProp.format = 32) :
    ((∃ w ∈ e.topWindows.filter (fun w => decide (e.pidOf w = pid)),
        e.isWindowVisible w = true ∧ 0 < e.titleLen w) →
      ∃ w, Win.find_window_by_pid e pid = .ok (some w) ∧
        w ∈ e.topWindows.filter (fun w => decide (e.pidOf w = pid)) ∧
        e.isWindowVisible w = true ∧ 0 < e.titleLen w) ∧
    ((∀ w ∈ e.topWindows.filter (fun w => decide (e.pidOf w = pid)),
        ¬(e.isWindowVisible w = true ∧ 0 < e.titleLen w)) →
      Win.find_window_by_pid e pid =
        .ok (e.topWindows.filter (fun w => decide (e.pidOf w = pid))).head?) ∧
    X11.find_window_by_pid s pid =
      .ok (s.clientListProp.value.find? fun w =>
        decide (X11.windowPid s w = some pid)) := by
  have hmain : ∀ l : List Nat, Win.findMainLoop e l =
      l.find? fun w => e.isWindowVisible w && decide (0 < e.titleLen w) :=
    Win.findMainLoop_eq e
  have hstep : Win.find_window_by_pid e pid =
      match Win.findMainLoop e
        (e.topWindows.filter fun w => decide (e.pidOf w = pid)) with
      | some w => .ok (some w)
      | none => .ok (e.topWindows.filter fun w => decide (e.pidOf w = pid)).head? := by
    rw [Win.find_window_by_pid, Win.find_windows_by_pid_matches e pid he]
  refine ⟨?_, ?_, X11.find_window_by_pid_eq s pid hc hf⟩
  · rintro ⟨w, hw, hvis, htit⟩
    have hsome : (Win.findMainLoop e
        (e.topWindows.filter fun w => decide (e.pidOf w = pid))).isSome := by
      rw [hmain, List.find?_isSome]
      exact ⟨w, hw, by simp [hvis, htit]⟩
    obtain ⟨w', hw'⟩ := Option.isSome_iff_exists.mp hsome
    have hmem : w' ∈ e.topWindows.filter fun w => decide (e.pidOf w = pid) := by
      rw [hmain] at hw'
      exact List.mem_of_find?_eq_some hw'
    have hpred := List.find?_some (hmain _ ▸ hw')
    simp only [Bool.and_eq_true, decide_eq_true_eq] at hpred
    refine ⟨w', ?_, hmem, hpred.1, hpred.2⟩
    rw [hstep, hw']
  · intro hnone
    have hfind : Win.findMainLoop e
        (e.topWindows.filter fun w => decide (e.pidOf w = pid)) = none := by
      rw [hmain, List.find?_eq_none]
      intro w hw
      have := hnone w hw
      simp only [Bool.and_eq_true, decide_eq_true_eq]
      rintro ⟨h1, h2⟩
      exact this ⟨h1, h2⟩
    rw [hstep, hfind]

/-- Witness for the amended C2 theorem at concrete inputs. -/
theorem find_window_by_pid_tiebreak_per_backend_witness :
    X11.find_window_by_pid twoWindowServer 9 = .ok none := by
  rw [(find_window_by_pid_tiebreak_per_backend sampleDesktop twoWindowServer 9
    rfl rfl rfl).2.2]
  rfl

/-- C3: counterexample — on X11, with a live connection but no active window
(`_NET_ACTIVE_WINDOW` empty), `get_active_window_pid` returns a hard error,
not the empty option. -/
theorem get_active_window_pid_errors_when_none_active :
    X11.get_active_window_pid twoWindowServer = .error "No active window found" ∧
    X11.get_active_window_pid twoWindowServer ≠ .ok none := by
  refine ⟨rfl, fun h => ?_⟩
  rw [show X11.get_active_window_pid twoWindowServer =
    Except.error "No active window found" from rfl] at h
  exact Except.noConfusion h

/-- C3 amended: on X11, when no window is active (or the active-window
property is malformed) `get_active_window_pid` returns a hard error; when an
active window exists it returns that window's optional `_NET_WM_PID` (the
empty option when the PID property is absent); a transport failure is a hard
error. On Windows it always returns `Ok(Some(pid))`, with pid 0 when there
is no foreground window. -/
theorem get_active_window_pid_behavior (s : X11.X11Server) (e : Win.WinSystem)
    (aw : Nat) (rest : List Nat) :
    (s.connectOk = true →
      (s.activeWindowProp.valueLen = 0 ∨ s.activeWindowProp.format ≠ 32) →
      X11.get_active_window_pid s = .error "No active window found") ∧
    (s.connectOk = true → s.activeWindowProp.format = 32 →
      s.activeWindowProp.value = aw :: rest →
      X11.get_active_window_pid s = .ok (X11.windowPid s aw)) ∧
    (s.connectOk = false →
      X11.get_active_window_pid s = .error "connection failed") ∧
    Win.get_active_window_pid e =
      .ok (some (if e.foregroundWindow = 0 then 0
                 else e.pidOf e.foregroundWindow)) := by
  refine ⟨?_, ?_, ?_, rfl⟩
  · intro hc hbad
    rw [X11.get_active_window_pid, if_pos hc, X11.get_active_window, if_pos hbad]
  · intro hc hf hval
    have hcond : ¬(s.activeWindowProp.valueLen = 0 ∨ s.activeWindowProp.format ≠ 32) := by
      simp [X11.GetPropertyReply.valueLen, hval, hf]
    rw [X11.get_active_window_pid, if_pos hc, X11.get_active_window, if_neg hcond]
    simp only [X11.GetPropertyReply.value32, hf, if_pos rfl, hval, List.head?_cons]
    exact X11.get_window_pid_eq s aw
  · intro hc
    rw [X11.get_active_window_pid, if_neg (by simp [hc])]

/-- Witness for the amended C3 theorem: the active window exists but has no
PID property, so the result is the empty option. -/
theorem get_active_window_pid_behavior_witness :
    X11.get_active_window_pid activeUntaggedServer = .ok none := by
  rw [(get_active_window_pid_behavior activeUntaggedServer sampleDesktop
    10 []).2.1 rfl rfl rfl]
  rfl

/-- C4: counterexample — the X11 `hide_window` request sequence begins by
unmapping the window: after its first request the initially mapped window is
unmapped, so the window does not remain mapped at every step. -/
theorem hide_window_unmaps_mid_sequence :
    mappedWindow.mapped = true ∧
    X11.XRequest.unmapWindow 5 ∈ X11.hideWindowRequests 5 ∧
    (X11.runRequests mappedWindow ((X11.hideWindowRequests 5).take 1)).mapped
      = false := by
  refine ⟨rfl, ?_, rfl⟩
  simp [X11.hideWindowRequests]

/-- C4 amended: on X11 `hide_window` unmaps the window, replaces
`_NET_WM_STATE` with the skip-taskbar and skip-pager hints, then maps the
window again: from every initial state the window is mapped after the whole
sequence, but it is unmapped after the sequence's first request. -/
theorem hide_window_unmaps_then_remaps (st : X11.XWindowState) :
    (X11.runRequests st (X11.hideWindowRequests st.winId)).mapped = true ∧
    (X11.runRequests st ((X11.hideWindowRequests st.winId).take 1)).mapped
      = false := by
  constructor
  · simp [X11.runRequests, X11.hideWindowRequests, X11.applyRequest]
  · simp [X11.runRequests, X11.hideWindowRequests, X11.applyRequest]

/-- C5: counterexample — on Windows a failure of the style-change step is
not surfaced: with the hide and re-show steps succeeding but
`SetWindowLongA` failing, `hide_window` still reports success. -/
theorem hide_window_swallows_style_failure :
    (⟨true, false, true⟩ : Win.WinHideEnv).setWindowLongOk = false ∧
    Win.hide_window ⟨true, false, true⟩ = .ok () :=
  ⟨rfl, rfl⟩

/-- C5 amended: on the X11 backend `hide_window` succeeds exactly when every
step of the sequence (connect, unmap, atom interning, property change, map,
flush) succeeds, so any step's failure is surfaced as an error; on the
Windows backend failures of the hide and re-show steps are surfaced, but the
result of the style-change step is discarded, so its failure is not. -/
theorem hide_window_error_surfacing (x : X11.X11HideEnv) (w : Win.WinHideEnv) :
    (X11.hide_window x = .ok () ↔
      (x.connectOk = true ∧ x.unmapOk = true ∧ x.internAtomOk = true ∧
        x.changePropertyOk = true ∧ x.mapOk = true ∧ x.flushOk = true)) ∧
    (w.hideOk = false →
      Win.hide_window w = .error "ShowWindow SW_HIDE failed") ∧
    (w.hideOk = true → w.showOk = false →
      Win.hide_window w = .error "ShowWindow SW_SHOW failed") ∧
    (w.hideOk = true → w.showOk = true → Win.hide_window w = .ok ()) := by
  obtain ⟨c, u, i, cp, m, f⟩ := x
  obtain ⟨h1, h2, h3⟩ := w
  refine ⟨?_, ?_, ?_, ?_⟩
  · cases c <;> cases u <;> cases i <;> cases cp <;> cases m <;> cases f <;>
      simp [X11.hide_window]
  all_goals cases h1 <;> cases h3 <;> simp [Win.hide_window]

/-- Witness for the amended C5 theorem at concrete inputs: a failing unmap
step on X11 is not reported as success, and a failing hide step on Windows
is an error. -/
theorem hide_window_error_surfacing_witness :
    X11.hide_window ⟨true, false, true, true, true, true⟩ ≠ .ok () ∧
    Win.hide_window ⟨false, true, true⟩ = .error "ShowWindow SW_HIDE failed" := by
  have h := hide_window_error_surfacing ⟨true, false, true, true, true, true⟩
    ⟨false, true, true⟩
  exact ⟨fun hok => by simpa using (h.1.mp hok).2.1, h.2.1 rfl⟩

/-- C6: counterexample — `SetWindowLongA(GWL_EXSTYLE, WS_EX_TOOLWINDOW)`
replaces the whole extended style: a window that carried `WS_EX_TOPMOST`
(bit 3) before `hide_window` has lost that bit afterwards, so not every
non-tool-window bit is preserved. -/
theorem hide_window_clears_other_exstyle_bits :
    (Win.WS_EX_TOOLWINDOW + Win.WS_EX_TOPMOST).testBit 3 = true ∧
    ((Win.hideWindowEffect
      ⟨true, Win.WS_EX_TOOLWINDOW + Win.WS_EX_TOPMOST⟩).exStyle).testBit 3
      = false := by
  constructor <;> decide

/-- C6 amended: on Windows `hide_window` stores exactly `WS_EX_TOOLWINDOW`
as the window's new extended style — every other previously set
extended-style bit is cleared — and leaves the window visible after the
hide/re-show pair. -/
theorem hide_window_replaces_exstyle (st : Win.WinWindowState) :
    Win.hideWindowEffect st =
      { visible := true, exStyle := Win.WS_EX_TOOLWINDOW } :=
  rfl

/-- C7: for every window whose `GetWindowRect` succeeds with a well-formed
i32 rectangle, `get_window_info` returns a `WindowInfo` whose position is
the rectangle's top-left corner `(left, top)` and whose size is
`(right - left, bottom - top)`; the size components are naturals, hence
non-negative. -/
theorem get_window_info_derives_rect (e : Win.WinSystem) (w : Nat)
    (r : Win.RECT) (hr : e.windowRect w = some r)
    (hx : r.left ≤ r.right) (hy : r.top ≤ r.bottom)
    (hw : r.right - r.left < 4294967296) (hh : r.bottom - r.top < 4294967296) :
    Win.get_window_info e w =
      .ok (some { pos := (r.left, r.top),
                  size := ((r.right - r.left).toNat, (r.bottom - r.top).toNat) }) := by
  have hm : ((Win.UINT32_MOD : Nat) : Int) = 4294967296 := by
    norm_num [Win.UINT32_MOD]
  have hrect : Win.rectToWindowInfo r =
      { pos := (r.left, r.top),
        size := ((r.right - r.left).toNat, (r.bottom - r.top).toNat) } := by
    simp only [Win.rectToWindowInfo, Win.asU32]
    rw [hm, Int.emod_eq_of_lt (by linarith) hw, Int.emod_eq_of_lt (by linarith) hh]
  rw [Win.get_window_info, hr]
  exact congrArg (fun wi => Except.ok (some wi)) hrect

/-- Witness for the C7 theorem at a concrete rectangle. -/
theorem get_window_info_derives_rect_witness :
    Win.get_window_info sampleDesktop 20 = .ok (some { pos := (10, 20), size := (100, 200) }) := by
  have h := get_window_info_derives_rect sampleDesktop 20 ⟨10, 20, 110, 220⟩
    rfl (by norm_num) (by norm_num) (by norm_num) (by norm_num)
  simpa using h

/-- C8: a pid owning zero top-level windows yields a successful empty
sequence from `find_windows_by_pid` and a successful empty option from
`find_window_by_pid` on both backends, while a transport/enumeration
failure yields a hard error from both. -/
theorem no_windows_is_empty_success (e : Win.WinSystem) (s : X11.X11Server)
    (pid : Nat) :
    (e.enumOk = true → (∀ w ∈ e.topWindows, e.pidOf w ≠ pid) →
      Win.find_windows_by_pid e pid = .ok [] ∧
      Win.find_window_by_pid e pid = .ok none) ∧
    (e.enumOk = false →
      Win.find_windows_by_pid e pid = .error "EnumWindows failed" ∧
      Win.find_window_by_pid e pid = .error "EnumWindows failed") ∧
    (s.connectOk = true → s.clientListProp.format = 32 →
      (∀ w ∈ s.clientListProp.value, X11.windowPid s w ≠ some pid) →
      X11.find_windows_by_pid s pid = .ok [] ∧
      X11.find_window_by_pid s pid = .ok none) ∧
    (s.connectOk = false →
      X11.find_windows_by_pid s pid = .error "connection failed" ∧
      X11.find_window_by_pid s pid = .error "connection failed") := by
  refine ⟨?_, ?_, ?_, ?_⟩
  · intro he hnone
    have hfilter : (e.topWindows.filter fun w => decide (e.pidOf w = pid)) = [] := by
      rw [List.filter_eq_nil_iff]
      intro w hw
      simpa using hnone w hw
    constructor
    · rw [Win.find_windows_by_pid_matches e pid he, hfilter]
    · rw [Win.find_window_by_pid, Win.find_windows_by_pid_matches e pid he, hfilter]
      rfl
  · intro he
    have hfail : Win.find_windows_by_pid e pid = .error "EnumWindows failed" := by
      rw [Win.find_windows_by_pid, if_neg (by simp [he])]
    exact ⟨hfail, by rw [Win.find_window_by_pid, hfail]⟩
  · intro hc hf hnone
    have hfilter :
        (s.clientListProp.value.filter fun w =>
          decide (X11.windowPid s w = some pid)) = [] := by
      rw [List.filter_eq_nil_iff]
      intro w hw
      simpa using hnone w hw
    have hfind :
        (s.clientListProp.value.find? fun w =>
          decide (X11.windowPid s w = some pid)) = none := by
      rw [List.find?_eq_none]
      intro w hw
      simpa using hnone w hw
    constructor
    · rw [X11.find_windows_by_pid_filter s pid hc hf, hfilter]
    · rw [X11.find_window_by_pid_eq s pid hc hf, hfind]
  · intro hc
    constructor
    · rw [X11.find_windows_by_pid, if_neg (by simp [hc])]
    · rw [X11.find_window_by_pid, if_neg (by simp [hc])]

/-- Witness for the C8 theorem: pid 99 owns no window on either concrete
desktop, and both lookups succeed with an empty result. -/
theorem no_windows_is_empty_success_witness :
    Win.find_windows_by_pid sampleDesktop 99 = .ok [] ∧
    Win.find_window_by_pid sampleDesktop 99 = .ok none ∧
    X11.find_windows_by_pid twoWindowServer 99 = .ok [] ∧
    X11.find_window_by_pid twoWindowServer 99 = .ok none := by
  have h := no_windows_is_empty_success sampleDesktop twoWindowServer 99
  have hwin := h.1 rfl (by decide)
  have hx := h.2.2.1 rfl rfl (by decide)
  exact ⟨hwin.1, hwin.2, hx.1, hx.2⟩

/-- C9: whenever `find_window_by_pid` returns a window handle, that handle
is an element of the list returned by `find_windows_by_pid` over the same
snapshot, on both backends. -/
theorem find_window_mem_find_windows (pid w : Nat) :
    (∀ e : Win.WinSystem, Win.find_window_by_pid e pid = .ok (some w) →
      ∃ l, Win.find_windows_by_pid e pid = .ok l ∧ w ∈ l) ∧
    (∀ s : X11.X11Server, X11.find_window_by_pid s pid = .ok (some w) →
      ∃ l, X11.find_windows_by_pid s pid = .ok l ∧ w ∈ l) := by
  constructor
  · intro e h
    cases he : e.enumOk with
    | false =>
      rw [Win.find_window_by_pid, Win.find_windows_by_pid, if_neg (by simp [he])] at h
      exact absurd h (by simp)
    | true =>
      have hstep : Win.find_window_by_pid e pid =
          match Win.findMainLoop e
            (e.topWindows.filter fun w => decide (e.pidOf w = pid)) with
          | some w' => .ok (some w')
          | none => .ok (e.topWindows.filter fun w =>
              decide (e.pidOf w = pid)).head? := by
        rw [Win.find_window_by_pid, Win.find_windows_by_pid_matches e pid he]
      rw [hstep] at h
      refine ⟨e.topWindows.filter fun w => decide (e.pidOf w = pid),
        Win.find_windows_by_pid_matches e pid he, ?_⟩
      cases hm : Win.findMainLoop e
          (e.topWindows.filter fun w => decide (e.pidOf w = pid)) with
      | some w' =>
        rw [hm] at h
        have hww : w' = w := by simpa using h
        subst hww
        rw [Win.findMainLoop_eq] at hm
        exact List.mem_of_find?_eq_some hm
      | none =>
        rw [hm] at h
        have hhead : (e.topWindows.filter fun w =>
            decide (e.pidOf w = pid)).head? = some w := by simpa using h
        cases hl : e.topWindows.filter fun w => decide (e.pidOf w = pid) with
        | nil => rw [hl] at hhead; exact absurd hhead (by simp)
        | cons a l =>
          rw [hl] at hhead
          simp only [List.head?_cons, Option.some.injEq] at hhead
          subst hhead
          exact List.mem_cons_self a l
  · intro s h
    cases hc : s.connectOk with
    | false =>
      rw [X11.find_window_by_pid, if_neg (by simp [hc])] at h
      exact absurd h (by simp)
    | true =>
      by_cases hf : s.clientListProp.format = 32
      · rw [X11.find_window_by_pid_eq s pid hc hf] at h
        have hfind : (s.clientListProp.value.find? fun w =>
            decide (X11.windowPid s w = some pid)) = some w := by simpa using h
        refine ⟨s.clientListProp.value.filter fun w =>
          decide (X11.windowPid s w = some pid),
          X11.find_windows_by_pid_filter s pid hc hf, ?_⟩
        have hp := List.find?_some hfind
        have hmem := List.mem_of_find?_eq_some hfind
        rw [List.mem_filter]
        exact ⟨hmem, by simpa using hp⟩
      · rw [X11.find_window_by_pid, if_pos hc, X11.get_top_level_windows] at h
        rw [show s.clientListProp.value32 = none from if_neg hf] at h
        exact absurd h (by simp)

/-- Witness for the C9 theorem: on the concrete X server, pid 7's first
window 10 is in pid 7's full window list. -/
theorem find_window_mem_find_windows_witness :
    ∃ l, X11.find_windows_by_pid twoWindowServer 7 = .ok l ∧ 10 ∈ l :=
  (find_window_mem_find_windows 7 10).2 twoWindowServer rfl

/-- C10: after the X11 `hide_window` request sequence, the target window's
`_NET_WM_STATE` property holds exactly the two atoms SKIP_TASKBAR and
SKIP_PAGER, whatever atoms it held before (the write uses
`PropMode::REPLACE`), so prior window-manager state atoms are discarded. -/
theorem hide_window_replaces_net_wm_state (st : X11.XWindowState) :
    (X11.runRequests st (X11.hideWindowRequests st.winId)).netWmState =
      [X11.NET_WM_STATE_SKIP_TASKBAR, X11.NET_WM_STATE_SKIP_PAGER] ∧
    X11.XRequest.changeProperty X11.PropMode.replace st.winId X11.NET_WM_STATE
        X11.ATOM_ATOM
        [X11.NET_WM_STATE_SKIP_TASKBAR, X11.NET_WM_STATE_SKIP_PAGER] ∈
      X11.hideWindowRequests st.winId := by
  constructor
  · simp [X11.runRequests, X11.hideWindowRequests, X11.applyRequest]
  · simp [X11.hideWindowRequests]

end Windowing
